import Mathlib

/-
Verification of the retrying API-call wrappers and the client-side video
cache of the ReddyFit video-analyzer application.

The embedding mirrors `src/services/geminiService.ts` and
`src/database/videoCache.ts`.  Network calls are abstracted as a function
from the 1-based attempt index to an outcome (success value or the thrown
error's message string); the retry loops, the classification of error
messages by substring tests, the progress notifications and the backoff
sleeps are translated line by line.  A run produces the list of observable
events (progress callbacks and sleeps, in order) together with the final
result.  `ApiKeyError` (a distinct `Error` subclass defined in
`src/utils/errors.ts`) is modelled as a distinct result constructor.
-/

namespace ReddyFit

/-- Character-list version of JS `String.prototype.startsWith`: does the
second list start with the first (the pattern)? -/
def startsWithL : List Char → List Char → Bool
  | [], _ => true
  | _ :: _, [] => false
  | p :: ps, c :: cs => p == c && startsWithL ps cs

/-- Character-list substring test: does the second argument contain the
pattern `pat` as a contiguous substring? -/
def hasSubL (pat : List Char) : List Char → Bool
  | [] => startsWithL pat []
  | c :: cs => startsWithL pat (c :: cs) || hasSubL pat cs

/-- Model of JS `s.includes(pat)`: substring containment. -/
def includes (s pat : String) : Bool :=
  hasSubL pat.toList s.toList

/-- Model of JS `s.toLowerCase()` (ASCII case mapping, which is all the
classification markers use), computed over the character list. -/
def jsToLower (s : String) : String :=
  String.mk (s.toList.map Char.toLower)

/-- Model of JS `s.trim()`: drop whitespace from both ends. -/
def jsTrim (s : String) : String :=
  String.mk (((s.toList.dropWhile Char.isWhitespace).reverse.dropWhile
    Char.isWhitespace).reverse)

/-- The transient-overload classification used at every call site
(`geminiService.ts` lines 63, 77, 180, 193, 235, 248):
`errorMessage.includes("503") || errorMessage.includes("overloaded") ||
errorMessage.includes("unavailable")`. -/
def overloadMarker (errorMessage : String) : Bool :=
  includes errorMessage "503" || includes errorMessage "overloaded" ||
    includes errorMessage "unavailable"

/-- Outcome of one abstracted external call: the operation either returns
a value or throws an error carrying a message string. -/
inductive Outcome (α : Type) where
  | ok (v : α)
  | err (msg : String)
  deriving Repr, DecidableEq

/-- Observable side effects of a wrapper run: a progress callback
`onProgress(attempt, maxAttempts)` or a sleep of the given number of
milliseconds. -/
inductive Ev where
  | progress (attempt maxAttempts : Nat)
  | sleep (ms : Nat)
  deriving Repr, DecidableEq

/-- Final result of a wrapper run: a returned value, a thrown
`ApiKeyError`, or a thrown plain `Error`, each carrying its message. -/
inductive GResult (α : Type) where
  | ok (v : α)
  | apiKeyError (msg : String)
  | error (msg : String)
  deriving Repr, DecidableEq

/-- Discriminator: is the result a thrown `ApiKeyError`? -/
def GResult.isApiKeyError {α : Type} : GResult α → Bool
  | .apiKeyError _ => true
  | _ => false

/-- `MAX_RETRIES` constant, identical at all three call sites. -/
def MAX_RETRIES : Nat := 3

/-- Post-loop error selection of `analyzeVideoWithFrames`
(`geminiService.ts` lines 75-83): overload messages are replaced by the
fixed generic text, anything else is wrapped with the operation prefix;
`lastError = null` gives the unknown-error text. -/
def analyzeFinal : Option String → GResult String
  | some msg =>
    if overloadMarker (jsToLower msg) then
      GResult.error "The AI model is currently overloaded. We tried several times without success. Please try again in a few moments."
    else
      GResult.error ("Failed to get analysis from Gemini API: " ++ msg)
  | none => GResult.error "An unknown error occurred while communicating with the Gemini API after all retries."

/-- The retry loop of `analyzeVideoWithFrames` (`geminiService.ts` lines
40-73), with the network call abstracted as `attempts` (1-based attempt
index to outcome).  `fuel` counts the remaining loop iterations allowed by
the guard `attempt <= MAX_RETRIES`, so it is `MAX_RETRIES + 1 - attempt`;
`fuel = 0` is the loop guard failing, which falls through to the post-loop
code with the accumulated `lastError`. -/
def analyzeLoop (attempts : Nat → Outcome String) :
    Nat → Nat → Option String → List Ev × GResult String
  | 0, _, lastError => ([], analyzeFinal lastError)
  | fuel + 1, attempt, _ =>
    match attempts attempt with
    | .ok v => ([], GResult.ok v)
    | .err msg =>
      if includes (jsToLower msg) "api key not valid" then
        ([], GResult.apiKeyError "Your API key is not valid. Please select a new one.")
      else if overloadMarker (jsToLower msg) ∧ attempt < MAX_RETRIES then
        let rest := analyzeLoop attempts fuel (attempt + 1) (some msg)
        (Ev.progress attempt MAX_RETRIES :: Ev.sleep (2 ^ attempt * 1000) :: rest.1,
          rest.2)
      else
        ([], analyzeFinal (some msg))

/-- `analyzeVideoWithFrames`, from the first attempt: the loop starts at
`attempt = 1` with `lastError = null`. -/
def analyzeVideoWithFrames (attempts : Nat → Outcome String) :
    List Ev × GResult String :=
  analyzeLoop attempts MAX_RETRIES 1 none

/-- Post-loop error selection of `generateWorkoutPlan`
(`geminiService.ts` lines 191-199).  Identical shape to `analyzeFinal`
but with the workout-plan prefix and unknown-error text. -/
def planFinal {α : Type} : Option String → GResult α
  | some msg =>
    if overloadMarker (jsToLower msg) then
      GResult.error "The AI model is currently overloaded. We tried several times without success. Please try again in a few moments."
    else
      GResult.error ("Failed to generate workout plan from Gemini API: " ++ msg)
  | none => GResult.error "An unknown error occurred while generating the workout plan after all retries."

/-- The retry loop of `generateWorkoutPlan` (`geminiService.ts` lines
143-189).  Unlike `analyzeLoop` its catch block performs no
API-key-invalid test: only the transient-overload test decides between
retrying and breaking.  The success value (the parsed plan) is abstract
in `α`. -/
def planLoop {α : Type} (attempts : Nat → Outcome α) :
    Nat → Nat → Option String → List Ev × GResult α
  | 0, _, lastError => ([], planFinal lastError)
  | fuel + 1, attempt, _ =>
    match attempts attempt with
    | .ok v => ([], GResult.ok v)
    | .err msg =>
      if overloadMarker (jsToLower msg) ∧ attempt < MAX_RETRIES then
        let rest := planLoop attempts fuel (attempt + 1) (some msg)
        (Ev.progress attempt MAX_RETRIES :: Ev.sleep (2 ^ attempt * 1000) :: rest.1,
          rest.2)
      else
        ([], planFinal (some msg))

/-- `generateWorkoutPlan`, from the first attempt. -/
def generateWorkoutPlan {α : Type} (attempts : Nat → Outcome α) :
    List Ev × GResult α :=
  planLoop attempts MAX_RETRIES 1 none

/-- The long-running video-generation operation object: its completion
flag `done` and the optional download URI reached through
`operation.response?.generatedVideos?.[0]?.video?.uri`. -/
structure Operation where
  done : Bool
  uri : Option String
  deriving Repr, DecidableEq

/-- Result of the start-call retry loop of `generateExerciseVideo`: either
no operation was obtained (with the final `lastError`, `none` when the
loop never ran an attempt), or the operation handle from the successful
start call. -/
inductive StartOutcome where
  | failed (lastError : Option String)
  | started (op : Operation)
  deriving Repr, DecidableEq

/-- The start-call retry loop of `generateExerciseVideo`
(`geminiService.ts` lines 217-244).  The catch block tests only the
transient-overload markers; there is no credential test inside the
loop. -/
def startLoop (attempts : Nat → Outcome Operation) :
    Nat → Nat → Option String → List Ev × StartOutcome
  | 0, _, lastError => ([], StartOutcome.failed lastError)
  | fuel + 1, attempt, _ =>
    match attempts attempt with
    | .ok op => ([], StartOutcome.started op)
    | .err msg =>
      if overloadMarker (jsToLower msg) ∧ attempt < MAX_RETRIES then
        let rest := startLoop attempts fuel (attempt + 1) (some msg)
        (Ev.progress attempt MAX_RETRIES :: Ev.sleep (2 ^ attempt * 1000) :: rest.1,
          rest.2)
      else
        ([], StartOutcome.failed (some msg))

/-- Error selection when the start loop produced no operation
(`geminiService.ts` lines 246-257): first the lower-cased overload test,
then the case-sensitive test of the raw message for
`"Requested entity was not found."` which throws `ApiKeyError`, then the
generic prefixed error. -/
def startFinal : Option String → GResult String
  | some msg =>
    if overloadMarker (jsToLower msg) then
      GResult.error "The video generation model is currently overloaded. We tried several times without success. Please try again in a few moments."
    else if includes msg "Requested entity was not found." then
      GResult.apiKeyError "API key not found or invalid. Please select a key."
    else
      GResult.error ("Failed to start video generation from Gemini API: " ++ msg)
  | none => GResult.error "An unknown error occurred while starting the video generation."

/-- The catch block of the polling phase (`geminiService.ts` lines
273-282), reached by any error thrown inside the try: the raw message is
tested case-sensitively for the entity-not-found text. -/
def pollCatch (msg : String) : GResult String
  :=
  if includes msg "Requested entity was not found." then
    GResult.apiKeyError "API key not found or invalid. Please select a key."
  else
    GResult.error ("Failed during video generation process: " ++ msg)

/-- After the polling loop observes `operation.done` (`geminiService.ts`
lines 265-271): return the download URI with `&key=` and the ambient API
key appended; a missing URI throws inside the try and is routed through
the same catch block. -/
def finishVideo (apiKey : String) (op : Operation) : GResult String :=
  match op.uri with
  | some downloadLink => GResult.ok (downloadLink ++ "&key=" ++ apiKey)
  | none => pollCatch "Video generation completed, but no download link was found."

/-- Result of the (unbounded) polling loop under a fuel bound: either the
function terminated with a result, or the fuel ran out while the
operation was still not done (the real loop would simply keep polling). -/
inductive PollResult where
  | finished (r : GResult String)
  | running (op : Operation)
  deriving Repr, DecidableEq

/-- The polling loop of `generateExerciseVideo` (`geminiService.ts` lines
260-263): while the operation is not done, sleep 10 seconds and poll
again.  `polls i` is the outcome of the i-th status poll (0-based); the
JS loop has no attempt ceiling, so termination is modelled by a fuel
bound whose exhaustion yields `PollResult.running`. -/
def pollLoop (apiKey : String) (polls : Nat → Outcome Operation) :
    Nat → Nat → Operation → List Ev × PollResult
  | 0, _, op =>
    if op.done then ([], PollResult.finished (finishVideo apiKey op))
    else ([], PollResult.running op)
  | fuel + 1, i, op =>
    if op.done then ([], PollResult.finished (finishVideo apiKey op))
    else
      match polls i with
      | .ok next =>
        let rest := pollLoop apiKey polls fuel (i + 1) next
        (Ev.sleep 10000 :: rest.1, rest.2)
      | .err msg => ([Ev.sleep 10000], PollResult.finished (pollCatch msg))

/-- `generateExerciseVideo` (`geminiService.ts` lines 208-283): the start
retry loop followed, on success, by the polling phase.  `apiKey` models
the ambient `process.env.API_KEY`; `fuel` bounds the number of polls the
model can observe. -/
def generateExerciseVideo (apiKey : String) (attempts : Nat → Outcome Operation)
    (polls : Nat → Outcome Operation) (fuel : Nat) : List Ev × PollResult :=
  match startLoop attempts MAX_RETRIES 1 none with
  | (evs, StartOutcome.failed lastError) =>
    (evs, PollResult.finished (startFinal lastError))
  | (evs, StartOutcome.started op) =>
    let rest := pollLoop apiKey polls fuel 0 op
    (evs ++ rest.1, rest.2)

/-- Model of JS `s.toLowerCase().trim()` as used by the video cache. -/
def normKey (s : String) : String :=
  jsTrim (jsToLower s)

/-- The pre-populated `videoDatabase` of `src/database/videoCache.ts`
(lines 10-15), as an insertion-ordered association list. -/
def initialVideoDatabase : List (String × String) :=
  [("Push-ups", "https://storage.googleapis.com/gtv-videos-bucket/sample/ForBiggerFun.mp4"),
   ("Dumbbell Bicep Curl", "https://storage.googleapis.com/gtv-videos-bucket/sample/ForBiggerJoyrides.mp4"),
   ("Squats", "https://storage.googleapis.com/gtv-videos-bucket/sample/ForBiggerMeltdowns.mp4"),
   ("Plank", "https://storage.googleapis.com/gtv-videos-bucket/sample/SubaruOutbackOnStreetAndDirt.mp4")]

/-- The `for (const key in videoDatabase)` scan of `getCachedVideo`: the
first entry whose normalized key equals the normalized query wins. -/
def lookupCI (needle : String) : List (String × String) → Option String
  | [] => none
  | (key, v) :: rest => if normKey key == needle then some v else lookupCI needle rest

/-- `getCachedVideo` (`videoCache.ts` lines 23-31), with the mutable
module-level cache passed explicitly. -/
def getCachedVideo (db : List (String × String)) (exerciseName : String) :
    Option String :=
  lookupCI (normKey exerciseName) db

/-- JS property assignment `videoDatabase[exerciseName] = videoUrl`:
overwrite the value of an exactly-equal existing key in place, otherwise
append at the end (JS object insertion order). -/
def setKey : List (String × String) → String → String → List (String × String)
  | [], k, v => [(k, v)]
  | (k0, v0) :: rest, k, v =>
    if k0 == k then (k0, v) :: rest else (k0, v0) :: setKey rest k v

/-- JS falsiness of `getCachedVideo`'s result: `null` or the empty
string. -/
def jsFalsy : Option String → Bool
  | none => true
  | some s => s == ""

/-- `cacheVideo` (`videoCache.ts` lines 38-44): the entry is written only
when `getCachedVideo` returns a falsy value ("Avoid overwriting existing
entries with the same name (case-insensitive)"). -/
def cacheVideo (db : List (String × String)) (exerciseName videoUrl : String) :
    List (String × String) :=
  if jsFalsy (getCachedVideo db exerciseName) then
    setKey db exerciseName videoUrl
  else
    db

/-- Event trace produced by `n` scheduled retries starting at attempt 1:
`progress 1, sleep 2s, progress 2, sleep 4s, ...`. -/
def retryEvs : Nat → List Ev
  | 0 => []
  | n + 1 => retryEvs n ++ [Ev.progress (n + 1) MAX_RETRIES, Ev.sleep (2 ^ (n + 1) * 1000)]

/-- The progress invocations of a trace, in order, as
`(attempt, maxAttempts)` pairs. -/
def progressEntries : List Ev → List (Nat × Nat)
  | [] => []
  | Ev.progress a m :: rest => (a, m) :: progressEntries rest
  | Ev.sleep _ :: rest => progressEntries rest

/-- C9: in `analyzeVideoWithFrames`, credential classification takes
priority over transient-overload classification.  At any reached attempt
(any remaining fuel, any accumulated last error), a failure whose
lower-cased message contains both the API-key-invalid marker and a
transient-overload marker throws `ApiKeyError` at once: the loop
contributes no further events, so there is no retry, no backoff sleep and
no progress notification for that error. -/
theorem C9_apiKey_priority_over_overload (attempts : Nat → Outcome String)
    (msg : String) (fuel attempt : Nat) (last : Option String)
    (hfail : attempts attempt = Outcome.err msg)
    (hkey : includes (jsToLower msg) "api key not valid" = true)
    (hover : overloadMarker (jsToLower msg) = true) :
    analyzeLoop attempts (fuel + 1) attempt last =
      ([], GResult.apiKeyError "Your API key is not valid. Please select a new one.") := by
  simp [analyzeLoop, hfail, hkey]

/-- Witness for C9 at a concrete input: the message carries both markers
and the run throws `ApiKeyError` with an empty event trace. -/
theorem C9_witness :
    analyzeLoop (fun _ => Outcome.err "503 overloaded, api key not valid") 3 1 none =
      ([], GResult.apiKeyError "Your API key is not valid. Please select a new one.") :=
  C9_apiKey_priority_over_overload (fun _ => Outcome.err "503 overloaded, api key not valid")
    "503 overloaded, api key not valid" 2 1 none rfl (by decide) (by decide)

/-- C1 fails as stated: `generateWorkoutPlan` has no credential check in
its retry loop.  When every attempt fails with the message
`"api key not valid"`, the run does not throw the distinct credential
error: it throws a plain error carrying the generic workout-plan prefix. -/
theorem C1_counterexample :
    (generateWorkoutPlan (fun _ => Outcome.err "api key not valid") :
        List Ev × GResult Unit) =
      ([], GResult.error "Failed to generate workout plan from Gemini API: api key not valid") ∧
    GResult.isApiKeyError
      (generateWorkoutPlan (fun _ => Outcome.err "api key not valid") :
        List Ev × GResult Unit).2 = false := by
  exact ⟨rfl, rfl⟩

/-- C1 amended: only `analyzeVideoWithFrames` throws `ApiKeyError`
immediately on an API-key-invalid message (no retry, and on the first
attempt the progress observer is never invoked, witnessed by the empty
event trace).  `generateWorkoutPlan` and the start call of
`generateExerciseVideo` perform no credential classification: a failure
whose message carries the API-key-invalid marker but no transient marker
(and not the entity-not-found text) is likewise not retried, but is
surfaced as a generic prefixed plain error, not as `ApiKeyError`. -/
theorem C1_amended_credential_handling (msg : String)
    (hkey : includes (jsToLower msg) "api key not valid" = true)
    (hnoover : overloadMarker (jsToLower msg) = false)
    (hnoent : includes msg "Requested entity was not found." = false)
    (a1 : Nat → Outcome String) (a2 : Nat → Outcome Unit)
    (a3 : Nat → Outcome Operation) (apiKey : String)
    (polls : Nat → Outcome Operation) (pfuel : Nat)
    (h1 : a1 1 = Outcome.err msg) (h2 : a2 1 = Outcome.err msg)
    (h3 : a3 1 = Outcome.err msg) :
    analyzeVideoWithFrames a1 =
      ([], GResult.apiKeyError "Your API key is not valid. Please select a new one.") ∧
    generateWorkoutPlan a2 =
      ([], GResult.error ("Failed to generate workout plan from Gemini API: " ++ msg)) ∧
    generateExerciseVideo apiKey a3 polls pfuel =
      ([], PollResult.finished
        (GResult.error ("Failed to start video generation from Gemini API: " ++ msg))) := by
  refine ⟨?_, ?_, ?_⟩
  · simp [analyzeVideoWithFrames, MAX_RETRIES, analyzeLoop, h1, hkey]
  · simp [generateWorkoutPlan, MAX_RETRIES, planLoop, h2, hnoover, planFinal]
  · simp [generateExerciseVideo, MAX_RETRIES, startLoop, h3, hnoover, startFinal, hnoent]

/-- Witness for the amended C1 at the concrete message
`"api key not valid"`. -/
theorem C1_witness :
    analyzeVideoWithFrames (fun _ => Outcome.err "api key not valid") =
      ([], GResult.apiKeyError "Your API key is not valid. Please select a new one.") ∧
    (generateWorkoutPlan (fun _ => Outcome.err "api key not valid") :
        List Ev × GResult Unit) =
      ([], GResult.error ("Failed to generate workout plan from Gemini API: " ++ "api key not valid")) ∧
    generateExerciseVideo "KEY" (fun _ => Outcome.err "api key not valid")
        (fun _ => Outcome.ok ⟨true, some "u"⟩) 0 =
      ([], PollResult.finished
        (GResult.error ("Failed to start video generation from Gemini API: " ++ "api key not valid"))) :=
  C1_amended_credential_handling "api key not valid" (by decide) (by decide) (by decide)
    (fun _ => Outcome.err "api key not valid") (fun _ => Outcome.err "api key not valid")
    (fun _ => Outcome.err "api key not valid") "KEY"
    (fun _ => Outcome.ok ⟨true, some "u"⟩) 0 rfl rfl rfl

/-- C4: at any reached attempt of `analyzeVideoWithFrames`, a failure
whose lower-cased message contains neither a transient-overload marker
nor the credential marker ends the loop at once with no retry, no backoff
sleep and no progress notification (empty remaining trace), and the
thrown error's message is the operation-identifying prefix followed by
the original failure message. -/
theorem C4_unclassified_no_retry (attempts : Nat → Outcome String)
    (msg : String) (fuel attempt : Nat) (last : Option String)
    (hfail : attempts attempt = Outcome.err msg)
    (hnoover : overloadMarker (jsToLower msg) = false)
    (hnokey : includes (jsToLower msg) "api key not valid" = false) :
    analyzeLoop attempts (fuel + 1) attempt last =
      ([], GResult.error ("Failed to get analysis from Gemini API: " ++ msg)) := by
  simp [analyzeLoop, hfail, hnokey, hnoover, analyzeFinal]

/-- Witness for C4 at the concrete message `"malformed request"` on the
first attempt. -/
theorem C4_witness :
    analyzeLoop (fun _ => Outcome.err "malformed request") 3 1 none =
      ([], GResult.error ("Failed to get analysis from Gemini API: " ++ "malformed request")) :=
  C4_unclassified_no_retry (fun _ => Outcome.err "malformed request")
    "malformed request" 2 1 none rfl (by decide) (by decide)

/-- C2: if the first `N` attempts (`0 ≤ N ≤ 2`) of
`analyzeVideoWithFrames` fail with transient-overload messages (carrying
an overload marker and, per the classification order, not the credential
marker) and attempt `N + 1` succeeds with `v`, the run returns `v` and
its event trace is exactly `retryEvs N`; in particular the progress
observer is invoked exactly `N` times, with the strictly increasing
attempt numbers `1..N`, each paired with `maxAttempts = 3`. -/
theorem C2_transient_then_success (N : Nat) (hN : N ≤ 2) (v : String)
    (attempts : Nat → Outcome String)
    (hfail : ∀ i, 1 ≤ i → i ≤ N → ∃ m, attempts i = Outcome.err m ∧
      overloadMarker (jsToLower m) = true ∧
      includes (jsToLower m) "api key not valid" = false)
    (hok : attempts (N + 1) = Outcome.ok v) :
    analyzeVideoWithFrames attempts = (retryEvs N, GResult.ok v) ∧
    progressEntries (analyzeVideoWithFrames attempts).1 =
      (List.range N).map (fun i => (i + 1, MAX_RETRIES)) := by
  have main : analyzeVideoWithFrames attempts = (retryEvs N, GResult.ok v) := by
    match N, hN with
    | 0, _ =>
      simp [analyzeVideoWithFrames, MAX_RETRIES, analyzeLoop, hok, retryEvs]
    | 1, _ =>
      obtain ⟨m1, hm1, ho1, hk1⟩ := hfail 1 (by omega) (by omega)
      simp [analyzeVideoWithFrames, MAX_RETRIES, analyzeLoop, hm1, ho1, hk1, hok,
        retryEvs]
    | 2, _ =>
      obtain ⟨m1, hm1, ho1, hk1⟩ := hfail 1 (by omega) (by omega)
      obtain ⟨m2, hm2, ho2, hk2⟩ := hfail 2 (by omega) (by omega)
      simp [analyzeVideoWithFrames, MAX_RETRIES, analyzeLoop, hm1, ho1, hk1, hm2,
        ho2, hk2, hok, retryEvs]
  refine ⟨main, ?_⟩
  rw [main]
  match N, hN with
  | 0, _ => simp [retryEvs, progressEntries]
  | 1, _ => simp [retryEvs, progressEntries, List.range_succ]
  | 2, _ => simp [retryEvs, progressEntries, List.range_succ]

/-- Witness for C2 at `N = 2`: two overload failures, then success. -/
theorem C2_witness :
    analyzeVideoWithFrames
        (fun i => if i ≤ 2 then Outcome.err "model unavailable" else Outcome.ok "report") =
      (retryEvs 2, GResult.ok "report") ∧
    progressEntries
        (analyzeVideoWithFrames
          (fun i => if i ≤ 2 then Outcome.err "model unavailable" else Outcome.ok "report")).1 =
      (List.range 2).map (fun i => (i + 1, MAX_RETRIES)) :=
  C2_transient_then_success 2 (by decide) "report"
    (fun i => if i ≤ 2 then Outcome.err "model unavailable" else Outcome.ok "report")
    (fun i h1 h2 => ⟨"model unavailable", by
      have : i ≤ 2 := h2
      simp [this], by decide, by decide⟩)
    (by decide)

/-- C3: three consecutive transient-overload failures exhaust
`analyzeVideoWithFrames` and `generateWorkoutPlan`.  Both runs throw the
fixed generic overload message rather than the raw backend message, and
the full event trace is exactly `progress(1,3), sleep 2000ms,
progress(2,3), sleep 4000ms`: two backoff sleeps of `2^1` and `2^2`
seconds before attempts 2 and 3, and after the final attempt no further
sleep or progress notification. -/
theorem C3_overload_exhaustion (m1 m2 m3 : String)
    (ho1 : overloadMarker (jsToLower m1) = true)
    (hk1 : includes (jsToLower m1) "api key not valid" = false)
    (ho2 : overloadMarker (jsToLower m2) = true)
    (hk2 : includes (jsToLower m2) "api key not valid" = false)
    (ho3 : overloadMarker (jsToLower m3) = true)
    (hk3 : includes (jsToLower m3) "api key not valid" = false)
    (a1 : Nat → Outcome String) (a2 : Nat → Outcome Unit)
    (h1 : a1 1 = Outcome.err m1) (h2 : a1 2 = Outcome.err m2)
    (h3 : a1 3 = Outcome.err m3)
    (g1 : a2 1 = Outcome.err m1) (g2 : a2 2 = Outcome.err m2)
    (g3 : a2 3 = Outcome.err m3) :
    analyzeVideoWithFrames a1 =
      ([Ev.progress 1 3, Ev.sleep 2000, Ev.progress 2 3, Ev.sleep 4000],
        GResult.error "The AI model is currently overloaded. We tried several times without success. Please try again in a few moments.") ∧
    generateWorkoutPlan a2 =
      ([Ev.progress 1 3, Ev.sleep 2000, Ev.progress 2 3, Ev.sleep 4000],
        GResult.error "The AI model is currently overloaded. We tried several times without success. Please try again in a few moments.") := by
  constructor
  · simp [analyzeVideoWithFrames, MAX_RETRIES, analyzeLoop, h1, ho1, hk1, h2, ho2,
      hk2, h3, ho3, hk3, analyzeFinal]
  · simp [generateWorkoutPlan, MAX_RETRIES, planLoop, g1, ho1, g2, ho2, g3, ho3,
      planFinal]

/-- Witness for C3 with three concrete overload messages. -/
theorem C3_witness :
    analyzeVideoWithFrames
        (fun i => if i = 1 then Outcome.err "503 backend error"
          else if i = 2 then Outcome.err "model is overloaded"
          else Outcome.err "service unavailable") =
      ([Ev.progress 1 3, Ev.sleep 2000, Ev.progress 2 3, Ev.sleep 4000],
        GResult.error "The AI model is currently overloaded. We tried several times without success. Please try again in a few moments.") ∧
    (generateWorkoutPlan
        (fun i => if i = 1 then Outcome.err "503 backend error"
          else if i = 2 then Outcome.err "model is overloaded"
          else Outcome.err "service unavailable") : List Ev × GResult Unit) =
      ([Ev.progress 1 3, Ev.sleep 2000, Ev.progress 2 3, Ev.sleep 4000],
        GResult.error "The AI model is currently overloaded. We tried several times without success. Please try again in a few moments.") :=
  C3_overload_exhaustion "503 backend error" "model is overloaded" "service unavailable"
    (by decide) (by decide) (by decide) (by decide) (by decide) (by decide)
    (fun i => if i = 1 then Outcome.err "503 backend error"
      else if i = 2 then Outcome.err "model is overloaded"
      else Outcome.err "service unavailable")
    (fun i => if i = 1 then Outcome.err "503 backend error"
      else if i = 2 then Outcome.err "model is overloaded"
      else Outcome.err "service unavailable")
    rfl rfl rfl rfl rfl rfl

/-- C5 fails as stated: the entity-not-found classification in
`generateExerciseVideo` is a case-sensitive substring test on the raw
message, not a lower-cased test like the one for invalid credentials.
The exact backend casing `"Requested entity was not found."` is surfaced
as `ApiKeyError`, while the same message lower-cased — which a
lower-casing classifier would necessarily treat identically — is
surfaced as a plain prefixed error. -/
theorem C5_counterexample :
    (generateExerciseVideo "KEY" (fun _ => Outcome.err "Requested entity was not found.")
        (fun _ => Outcome.ok ⟨true, some "u"⟩) 0).2 =
      PollResult.finished (GResult.apiKeyError "API key not found or invalid. Please select a key.") ∧
    (generateExerciseVideo "KEY" (fun _ => Outcome.err "requested entity was not found.")
        (fun _ => Outcome.ok ⟨true, some "u"⟩) 0).2 =
      PollResult.finished (GResult.error "Failed to start video generation from Gemini API: requested entity was not found.") := by
  exact ⟨rfl, rfl⟩

/-- C5 amended: in `generateExerciseVideo`'s start retry loop, a failure
whose raw message contains the exact text
`"Requested entity was not found."` (a case-sensitive test, unlike the
lower-cased transient tests) and carries no transient-overload marker is
not retried at any reached attempt — the loop ends immediately with no
further events — and the run surfaces `ApiKeyError`. -/
theorem C5_amended_entity_not_found (msg : String)
    (hnoover : overloadMarker (jsToLower msg) = false)
    (hent : includes msg "Requested entity was not found." = true)
    (attempts : Nat → Outcome Operation) (fuel attempt : Nat)
    (last : Option String) (hfail : attempts attempt = Outcome.err msg)
    (a2 : Nat → Outcome Operation) (apiKey : String)
    (polls : Nat → Outcome Operation) (pfuel : Nat)
    (h2 : a2 1 = Outcome.err msg) :
    startLoop attempts (fuel + 1) attempt last = ([], StartOutcome.failed (some msg)) ∧
    generateExerciseVideo apiKey a2 polls pfuel =
      ([], PollResult.finished
        (GResult.apiKeyError "API key not found or invalid. Please select a key.")) := by
  constructor
  · simp [startLoop, hfail, hnoover]
  · simp [generateExerciseVideo, MAX_RETRIES, startLoop, h2, hnoover, startFinal,
      hent]

/-- Witness for the amended C5 at the exact backend message. -/
theorem C5_witness :
    startLoop (fun _ => Outcome.err "Requested entity was not found.") 3 1 none =
      ([], StartOutcome.failed (some "Requested entity was not found.")) ∧
    generateExerciseVideo "KEY" (fun _ => Outcome.err "Requested entity was not found.")
        (fun _ => Outcome.ok ⟨true, some "u"⟩) 0 =
      ([], PollResult.finished
        (GResult.apiKeyError "API key not found or invalid. Please select a key.")) :=
  C5_amended_entity_not_found "Requested entity was not found." (by decide) (by decide)
    (fun _ => Outcome.err "Requested entity was not found.") 2 1 none rfl
    (fun _ => Outcome.err "Requested entity was not found.") "KEY"
    (fun _ => Outcome.ok ⟨true, some "u"⟩) 0 rfl

/-- Helper for C6: starting from operation `ops start`, when the next
operations are delivered by successful polls and the first completed one
is `ops (start + k)`, the polling loop emits exactly `k` sleeps of 10
seconds and finishes with `finishVideo` of the completed operation, for
any fuel of at least `k`. -/
theorem pollLoop_replicate (apiKey : String) (ops : Nat → Operation) (k : Nat) :
    ∀ start fuel, (∀ i, i < k → (ops (start + i)).done = false) →
      (ops (start + k)).done = true → k ≤ fuel →
      pollLoop apiKey (fun i => Outcome.ok (ops (i + 1))) fuel start (ops start) =
        (List.replicate k (Ev.sleep 10000),
          PollResult.finished (finishVideo apiKey (ops (start + k)))) := by
  induction k with
  | zero =>
    intro start fuel hrun hdone hfuel
    have hdone0 : (ops start).done = true := by simpa using hdone
    cases fuel with
    | zero => simp [pollLoop, hdone0]
    | succ f => simp [pollLoop, hdone0]
  | succ k ih =>
    intro start fuel hrun hdone hfuel
    have h0 : (ops start).done = false := by
      simpa using hrun 0 (Nat.succ_pos k)
    obtain ⟨f, rfl⟩ : ∃ f, fuel = f + 1 := ⟨fuel - 1, by omega⟩
    have step := ih (start + 1) f
      (fun i hi => by
        have h := hrun (i + 1) (by omega)
        have e : start + (i + 1) = start + 1 + i := by omega
        rwa [e] at h)
      (by
        have e : start + (k + 1) = start + 1 + k := by omega
        rwa [e] at hdone)
      (by omega)
    have e2 : start + (k + 1) = start + 1 + k := by omega
    rw [e2]
    simp [pollLoop, h0, step, List.replicate_succ]

/-- C6: after a successful start, `generateExerciseVideo` polls with a
fixed 10-second sleep before each poll and no attempt ceiling — for every
fuel bound at least `k`, a run whose first `k` operation snapshots are
not done and whose `k`-th is done performs exactly `k` sleeps of 10000ms
and finishes from the completed operation.  A polling error whose raw
message contains the entity-not-found text is rethrown as `ApiKeyError`;
any other polling error is surfaced immediately (no further events) with
the polling prefix. -/
theorem C6_polling_phase (apiKey : String) (ops : Nat → Operation) (k fuel : Nat)
    (hrun : ∀ i, i < k → (ops i).done = false) (hdone : (ops k).done = true)
    (hfuel : k ≤ fuel) (polls2 : Nat → Outcome Operation) (msg : String)
    (i0 pfuel : Nat) (op0 : Operation) (hnd : op0.done = false)
    (herr : polls2 i0 = Outcome.err msg) :
    pollLoop apiKey (fun i => Outcome.ok (ops (i + 1))) fuel 0 (ops 0) =
      (List.replicate k (Ev.sleep 10000),
        PollResult.finished (finishVideo apiKey (ops k))) ∧
    pollLoop apiKey polls2 (pfuel + 1) i0 op0 =
      ([Ev.sleep 10000], PollResult.finished
        (if includes msg "Requested entity was not found." then
          GResult.apiKeyError "API key not found or invalid. Please select a key."
        else GResult.error ("Failed during video generation process: " ++ msg))) := by
  constructor
  · have h := pollLoop_replicate apiKey ops k 0 fuel
      (fun i hi => by simpa using hrun i hi) (by simpa using hdone) hfuel
    simpa using h
  · simp [pollLoop, hnd, herr, pollCatch]

/-- Witness for C6: two pending polls then completion, and an
entity-not-found polling error. -/
theorem C6_witness :
    pollLoop "KEY"
        (fun i => Outcome.ok
          (if i + 1 < 2 then ⟨false, none⟩ else ⟨true, some "u"⟩)) 5 0
        (if (0 : Nat) < 2 then ⟨false, none⟩ else ⟨true, some "u"⟩) =
      (List.replicate 2 (Ev.sleep 10000),
        PollResult.finished (finishVideo "KEY"
          (if (2 : Nat) < 2 then ⟨false, none⟩ else ⟨true, some "u"⟩))) ∧
    pollLoop "KEY" (fun _ => Outcome.err "Requested entity was not found.") 1 0
        ⟨false, none⟩ =
      ([Ev.sleep 10000], PollResult.finished
        (if includes "Requested entity was not found." "Requested entity was not found." then
          GResult.apiKeyError "API key not found or invalid. Please select a key."
        else GResult.error ("Failed during video generation process: " ++ "Requested entity was not found."))) :=
  C6_polling_phase "KEY" (fun i => if i < 2 then ⟨false, none⟩ else ⟨true, some "u"⟩)
    2 5 (fun i hi => by simp [hi]) (by decide) (by decide)
    (fun _ => Outcome.err "Requested entity was not found.")
    "Requested entity was not found." 0 0 ⟨false, none⟩ (by decide) rfl

/-- Helper for C7: writing a key that has no case-insensitive match in
the cache makes the case-insensitive lookup of that key find the written
value. -/
theorem lookupCI_setKey_self (name url : String) :
    ∀ db : List (String × String), lookupCI (normKey name) db = none →
      lookupCI (normKey name) (setKey db name url) = some url := by
  intro db
  induction db with
  | nil => intro _; simp [setKey, lookupCI]
  | cons hd tl ih =>
    intro h
    obtain ⟨k0, v0⟩ := hd
    by_cases hk : (normKey k0 == normKey name) = true
    · simp [lookupCI, hk] at h
    · have hk0 : (k0 == name) = false := by
        rcases hb : k0 == name with _ | _
        · rfl
        · exact absurd (by rw [beq_iff_eq.mp hb]; simp) hk
      simp only [lookupCI, hk] at h
      rw [Bool.not_eq_true] at hk
      simp [setKey, hk0, lookupCI, hk, ih h]

/-- C7 fails as stated: the cache is first-write-wins, not
last-write-wins.  Caching a new URL under a name that already has a
(case-insensitive) entry leaves the old value in place: after
`cacheVideo "Push-ups" <new>`, lookup still returns the pre-populated
URL and not the new one. -/
theorem C7_counterexample :
    getCachedVideo (cacheVideo initialVideoDatabase "Push-ups" "https://example.com/new.mp4")
        "Push-ups" =
      some "https://storage.googleapis.com/gtv-videos-bucket/sample/ForBiggerFun.mp4" ∧
    getCachedVideo (cacheVideo initialVideoDatabase "Push-ups" "https://example.com/new.mp4")
        "Push-ups" ≠
      some "https://example.com/new.mp4" := by
  exact ⟨rfl, by decide⟩

/-- C7 amended: the cache is first-write-wins.  `cacheVideo name url`
makes a subsequent `getCachedVideo name` return `url` when no
case-insensitively matching entry existed; when a matching entry with a
non-empty (truthy) stored URL exists, `cacheVideo` leaves the cache
unchanged. -/
theorem C7_amended_first_write_wins (db : List (String × String)) (name url : String) :
    (getCachedVideo db name = none →
      getCachedVideo (cacheVideo db name url) name = some url) ∧
    (∀ v, getCachedVideo db name = some v → v ≠ "" → cacheVideo db name url = db) := by
  constructor
  · intro h
    have hf : jsFalsy (getCachedVideo db name) = true := by
      rw [h]; rfl
    show lookupCI (normKey name) (cacheVideo db name url) = some url
    rw [cacheVideo, if_pos hf]
    exact lookupCI_setKey_self name url db h
  · intro v hv hne
    have hf : jsFalsy (getCachedVideo db name) = false := by
      rw [hv]
      simpa [jsFalsy] using hne
    rw [cacheVideo, if_neg (by simp [hf])]

/-- Witness for the amended C7: a fresh name is cached and found; caching
over the pre-populated `"Push-ups"` entry leaves the database
unchanged. -/
theorem C7_witness :
    getCachedVideo (cacheVideo initialVideoDatabase "Deadlift" "https://example.com/d.mp4")
        "Deadlift" = some "https://example.com/d.mp4" ∧
    cacheVideo initialVideoDatabase "Push-ups" "https://example.com/new.mp4" =
      initialVideoDatabase :=
  ⟨(C7_amended_first_write_wins initialVideoDatabase "Deadlift" "https://example.com/d.mp4").1
      (by decide),
   (C7_amended_first_write_wins initialVideoDatabase "Push-ups" "https://example.com/new.mp4").2
      "https://storage.googleapis.com/gtv-videos-bucket/sample/ForBiggerFun.mp4"
      (by decide) (by decide)⟩

/-- Helper for C8: in a cache whose normalized keys are pairwise
distinct, the scan finds the value of any stored entry whose normalized
key equals the needle. -/
theorem lookupCI_mem (needle : String) :
    ∀ db : List (String × String),
      db.Pairwise (fun a b => normKey a.1 ≠ normKey b.1) →
      ∀ kv : String × String, kv ∈ db → needle = normKey kv.1 →
      lookupCI needle db = some kv.2 := by
  intro db
  induction db with
  | nil => intro _ kv hmem; cases hmem
  | cons hd tl ih =>
    intro hp kv hmem hne
    rw [List.pairwise_cons] at hp
    obtain ⟨k0, v0⟩ := hd
    rcases List.mem_cons.mp hmem with rfl | hmem2
    · simp [lookupCI, hne.symm]
    · have hd0 : normKey k0 ≠ normKey kv.1 := hp.1 kv hmem2
      have hbeq : (normKey k0 == needle) = false := by
        rcases hb : normKey k0 == needle with _ | _
        · rfl
        · exact absurd ((beq_iff_eq.mp hb).trans hne) hd0
      simp [lookupCI, hbeq, ih hp.2 kv hmem2 hne]

/-- Helper for C8: the scan returns `none` exactly when no stored key
matches the needle under normalization. -/
theorem lookupCI_none_iff (needle : String) :
    ∀ db : List (String × String),
      lookupCI needle db = none ↔ ∀ p ∈ db, needle ≠ normKey p.1 := by
  intro db
  induction db with
  | nil => simp [lookupCI]
  | cons hd tl ih =>
    obtain ⟨k0, v0⟩ := hd
    by_cases h : (normKey k0 == needle) = true
    · have : needle = normKey k0 := (beq_iff_eq.mp h).symm
      simp [lookupCI, h, this]
    · rw [Bool.not_eq_true] at h
      have hne : needle ≠ normKey k0 := by
        intro hx
        rw [hx] at h
        simp at h
      simp [lookupCI, h, ih, hne]

/-- C8: `getCachedVideo` performs case-insensitive lookup.  In a cache
state whose normalized (lower-cased, trimmed) keys are pairwise distinct
— which holds for the pre-populated database and is maintained by
`cacheVideo`'s no-duplicate guard — any query whose normalization equals
that of a stored key returns that key's value, and the lookup returns
`none` exactly when no stored key matches the query under the
normalization equivalence. -/
theorem C8_case_insensitive_lookup (db : List (String × String))
    (hdisj : db.Pairwise (fun a b => normKey a.1 ≠ normKey b.1))
    (k v : String) (hmem : (k, v) ∈ db) (s : String)
    (hs : normKey s = normKey k) (q : String) :
    getCachedVideo db s = some v ∧
    (getCachedVideo db q = none ↔ ∀ p ∈ db, normKey q ≠ normKey p.1) := by
  constructor
  · exact lookupCI_mem (normKey s) db hdisj (k, v) hmem hs
  · exact lookupCI_none_iff (normKey q) db

/-- Witness for C8 on the pre-populated database: an upper-cased, padded
query finds the `"Push-ups"` entry, and an absent name yields `none`. -/
theorem C8_witness :
    getCachedVideo initialVideoDatabase "  PUSH-UPS " =
      some "https://storage.googleapis.com/gtv-videos-bucket/sample/ForBiggerFun.mp4" ∧
    getCachedVideo initialVideoDatabase "Deadlift" = none :=
  ⟨(C8_case_insensitive_lookup initialVideoDatabase (by decide) "Push-ups"
      "https://storage.googleapis.com/gtv-videos-bucket/sample/ForBiggerFun.mp4"
      (by decide) "  PUSH-UPS " (by decide) "Deadlift").1,
   (C8_case_insensitive_lookup initialVideoDatabase (by decide) "Push-ups"
      "https://storage.googleapis.com/gtv-videos-bucket/sample/ForBiggerFun.mp4"
      (by decide) "  PUSH-UPS " (by decide) "Deadlift").2.mpr (by decide)⟩

/-- Helper for C10: the start-failure error selection never returns a
success value. -/
theorem startFinal_ne_ok (last : Option String) (r : String) :
    startFinal last ≠ GResult.ok r := by
  cases last with
  | none => simp [startFinal]
  | some msg =>
    simp only [startFinal]
    split_ifs <;> simp

/-- Helper for C10: the polling catch block never returns a success
value. -/
theorem pollCatch_ne_ok (msg r : String) : pollCatch msg ≠ GResult.ok r := by
  simp only [pollCatch]
  split_ifs <;> simp

/-- Helper for C10: a success value out of `finishVideo` is the download
URI with `&key=` and the API key appended. -/
theorem finishVideo_ok (apiKey : String) (op : Operation) (r : String)
    (h : finishVideo apiKey op = GResult.ok r) :
    ∃ downloadLink, r = downloadLink ++ "&key=" ++ apiKey := by
  cases huri : op.uri with
  | some link =>
    rw [finishVideo, huri] at h
    exact ⟨link, (GResult.ok.injEq _ _).mp h.symm⟩
  | none =>
    rw [finishVideo, huri] at h
    exact absurd h (pollCatch_ne_ok _ r)

/-- Helper for C10: every success value produced by the polling loop
carries the `&key=` suffix. -/
theorem pollLoop_ok_suffix (apiKey : String) (polls : Nat → Outcome Operation) :
    ∀ fuel i op r,
      (pollLoop apiKey polls fuel i op).2 = PollResult.finished (GResult.ok r) →
      ∃ downloadLink, r = downloadLink ++ "&key=" ++ apiKey := by
  intro fuel
  induction fuel with
  | zero =>
    intro i op r h
    by_cases hd : op.done
    · rw [pollLoop, if_pos hd] at h
      exact finishVideo_ok apiKey op r (by simpa using h)
    · rw [pollLoop, if_neg hd] at h
      simp at h
  | succ f ih =>
    intro i op r h
    by_cases hd : op.done
    · rw [pollLoop, if_pos hd] at h
      exact finishVideo_ok apiKey op r (by simpa using h)
    · rw [pollLoop, if_neg hd] at h
      cases hpoll : polls i with
      | ok next =>
        rw [hpoll] at h
        simp at h
        exact ih (i + 1) next r h
      | err msg =>
        rw [hpoll] at h
        simp at h
        exact absurd h (pollCatch_ne_ok msg r)

/-- C10: the API key is embedded in the returned URL.  Every run of
`generateExerciseVideo` that completes with a success value returns the
generated video's download URI with `"&key="` and the ambient API key
appended as a suffix; and concretely, when the start call succeeds with
an already-completed operation carrying URI `link`, the run returns
exactly `link ++ "&key=" ++ apiKey`. -/
theorem C10_key_embedded_in_url (apiKey : String) :
    (∀ (attempts polls : Nat → Outcome Operation) (fuel : Nat) (r : String),
      (generateExerciseVideo apiKey attempts polls fuel).2 =
        PollResult.finished (GResult.ok r) →
      ∃ downloadLink, r = downloadLink ++ "&key=" ++ apiKey) ∧
    (∀ (attempts polls : Nat → Outcome Operation) (fuel : Nat) (op : Operation)
      (link : String), attempts 1 = Outcome.ok op → op.done = true →
      op.uri = some link →
      generateExerciseVideo apiKey attempts polls fuel =
        ([], PollResult.finished (GResult.ok (link ++ "&key=" ++ apiKey)))) := by
  constructor
  · intro attempts polls fuel r h
    unfold generateExerciseVideo at h
    cases hstart : startLoop attempts MAX_RETRIES 1 none with
    | mk evs so =>
      rw [hstart] at h
      cases so with
      | failed le =>
        simp at h
        exact absurd h (startFinal_ne_ok le r)
      | started op =>
        simp at h
        exact pollLoop_ok_suffix apiKey polls fuel 0 op r h
  · intro attempts polls fuel op link h1 hdone huri
    have hstart : startLoop attempts MAX_RETRIES 1 none =
        ([], StartOutcome.started op) := by
      simp [MAX_RETRIES, startLoop, h1]
    cases fuel with
    | zero =>
      simp [generateExerciseVideo, hstart, pollLoop, hdone, finishVideo, huri]
    | succ f =>
      simp [generateExerciseVideo, hstart, pollLoop, hdone, finishVideo, huri]

/-- Witness for C10: a start call that immediately yields a completed
operation with URI `"https://video.example/v1?alt=media"` returns that
URI with `&key=KEY` appended. -/
theorem C10_witness :
    generateExerciseVideo "KEY"
        (fun _ => Outcome.ok ⟨true, some "https://video.example/v1?alt=media"⟩)
        (fun _ => Outcome.ok ⟨true, some "https://video.example/v1?alt=media"⟩) 0 =
      ([], PollResult.finished
        (GResult.ok ("https://video.example/v1?alt=media" ++ "&key=" ++ "KEY"))) :=
  (C10_key_embedded_in_url "KEY").2
    (fun _ => Outcome.ok ⟨true, some "https://video.example/v1?alt=media"⟩)
    (fun _ => Outcome.ok ⟨true, some "https://video.example/v1?alt=media"⟩) 0
    ⟨true, some "https://video.example/v1?alt=media"⟩
    "https://video.example/v1?alt=media" rfl rfl rfl

end ReddyFit
